import Mathlib

/-!
# Vagrant Cloud standalone post-processor

A shallow embedding of `post-processor.go`: the `Configure`, `PostProcess`,
`Cancel` methods of `PostProcessor` and the helper `fileExists`.

Library calls whose code is not part of the repository (the file system, the
process environment, the configuration decoder, the template renderer and the
step runner) are fields of a `World` record, so every theorem quantifies over
all behaviours of these collaborators.  Calls with an outside effect are
recorded, in program order, in an effect trace.
-/

namespace VagrantCloud

/-! ## Go values -/

/-- Go `error` values that reach this file.  `errorf` is the result of
`fmt.Errorf` (its text), `multiError` is a `*packer.MultiError` (the texts of
the collected errors, in order), `foreign` is an error made by a
collaborator (decoder, step). -/
inductive GoError where
  | errorf (msg : String)
  | multiError (msgs : List String)
  | foreign (origin : String) (msg : String)
  deriving DecidableEq, Repr

/-- The error classes of `os.Stat` that `os.IsNotExist` tells apart. -/
inductive OsError where
  | notExist
  | permission
  | other (msg : String)
  deriving DecidableEq, Repr

/-- Go `os.IsNotExist(err)`: true only for a non-nil error of the
"does not exist" class. -/
def IsNotExist (err : Option OsError) : Bool :=
  match err with
  | some OsError.notExist => true
  | _ => false

/-- Go `strings.HasSuffix(s, suffix)`:
`len(s) >= len(suffix) && s[len(s)-len(suffix):] == suffix`.  The suffix used
by the program is ASCII, so comparing characters agrees with comparing bytes. -/
def HasSuffix (s suffix : String) : Bool :=
  decide (suffix.data.length ≤ s.data.length) &&
    decide (s.data.drop (s.data.length - suffix.data.length) = suffix.data)

/-- The constant `VAGRANT_CLOUD_URL`. -/
def VAGRANT_CLOUD_URL : String := "https://vagrantcloud.com/api/v1"

/-! ## Data model -/

/-- The embedded `common.PackerConfig`.  Its declaration lives in the packer
library; the program only hands it on to `common.NewRunner`, so it is carried
as an uninterpreted list of settings. -/
abbrev PackerConfig := List (String × String)

/-- One raw configuration value handed to `Configure` (`interface{}` in Go),
consumed only by the decoder. -/
abbrev Raw := List (String × String)

/-- The struct `boxDownloadUrlTemplate`. -/
structure boxDownloadUrlTemplate where
  ArtifactId : String
  Provider : String
  deriving DecidableEq, Repr

/-- The part of `interpolate.Context` the program touches: its `Data` field. -/
structure Context where
  Data : Option boxDownloadUrlTemplate
  deriving DecidableEq, Repr

/-- The struct `Config`. -/
structure Config where
  PackerConfig : PackerConfig
  Tag : String
  Version : String
  VersionDescription : String
  NoRelease : Bool
  AccessToken : String
  VagrantCloudUrl : String
  BoxDownloadUrl : String
  ProviderName : String
  ArtifactFile : String
  ctx : Context
  deriving DecidableEq, Repr

/-- The registry client handle returned by `VagrantCloudClient{}.New(url, token)`.
The type is declared in another file of the repository; the handle records the
two constructor arguments. -/
structure VagrantCloudClient where
  BaseUrl : String
  AccessToken : String
  deriving DecidableEq, Repr

/-- `VagrantCloudClient{}.New(baseUrl, token)`. -/
def VagrantCloudClient.New (baseUrl token : String) : VagrantCloudClient :=
  { BaseUrl := baseUrl, AccessToken := token }

/-- The build artifact handed to `PostProcess` (`packer.Artifact`); the program
reads only `Id()`. -/
structure PackerArtifact where
  Id : String
  deriving DecidableEq, Repr

/-- The artifact returned on success, `NewArtifact(provider, tag)`: the
published identity (provider name, box tag). -/
structure Artifact where
  Provider : String
  Tag : String
  deriving DecidableEq, Repr

/-- `NewArtifact(provider, tag)`. -/
def NewArtifact (provider tag : String) : Artifact :=
  { Provider := provider, Tag := tag }

/-- The output sink `packer.Ui`, as a handle. -/
structure Ui where
  id : Nat
  deriving DecidableEq, Repr

/-- The six step types the program instantiates with `new(...)`. -/
inductive Step where
  | stepVerifyBox
  | stepCreateVersion
  | stepCreateProvider
  | stepPrepareUpload
  | stepUpload
  | stepReleaseVersion
  deriving DecidableEq, Repr

/-- The runner built by `common.NewRunner(steps, config, ui)`, as a handle
recording the constructor arguments. -/
structure Runner where
  steps : List Step
  packerConfig : PackerConfig
  ui : Ui
  deriving DecidableEq, Repr

/-- `common.NewRunner(steps, config, ui)`. -/
def NewRunner (steps : List Step) (config : PackerConfig) (ui : Ui) : Runner :=
  { steps := steps, packerConfig := config, ui := ui }

/-- The struct `PostProcessor`; `client` and `runner` are nil until
`PostProcess` assigns them. -/
structure PostProcessor where
  config : Config
  client : Option VagrantCloudClient
  runner : Option Runner
  warnAtlasToken : Bool
  deriving DecidableEq, Repr

/-! ## Shared state (`multistep.BasicStateBag`) -/

/-- The values stored in the state bag (`interface{}` in Go). -/
inductive Value where
  | config (c : Config)
  | client (c : Option VagrantCloudClient)
  | artifact (a : PackerArtifact)
  | ui (u : Ui)
  | str (s : String)
  | err (e : GoError)
  | other (description : String)
  deriving DecidableEq, Repr

/-- The state bag: a map from string keys to values, kept as an association
list with at most one entry per key. -/
abbrev StateBag := List (String × Value)

/-- `state.Put(key, value)`: map assignment. -/
def StateBag.Put (state : StateBag) (key : String) (value : Value) : StateBag :=
  state.filter (fun kv => kv.1 != key) ++ [(key, value)]

/-- `state.GetOk(key)`: `some v` when the key is present (`ok = true`). -/
def StateBag.GetOk (state : StateBag) (key : String) : Option Value :=
  state.lookup key

/-! ## Collaborators and effects -/

/-- The collaborators of the program whose code is outside the repository. -/
structure World where
  /-- The error result of `os.Stat(path)`; `none` is a nil error. -/
  Stat : String → Option OsError
  /-- `os.Getenv(name)`; the empty string when the variable is unset. -/
  Getenv : String → String
  /-- `config.Decode(&p.config, opts, raws...)`: the configuration after the
  call and the returned error. -/
  Decode : Config → List Raw → Config × Option GoError
  /-- The order in which Go ranges over the five-entry map `templates`
  (indices into the map literal, in source order). -/
  mapOrder : List Nat
  /-- `interpolate.Render(template, ctx)`; a failure carries the text of the
  returned error. -/
  Render : String → Context → Except String String
  /-- `runner.Run(state)`: the state bag when the run has ended. -/
  Run : Runner → StateBag → StateBag

/-- Calls with an effect outside the receiver, in program order. -/
inductive Effect where
  | uiMessage (ui : Ui) (msg : String)
  | clientNew (baseUrl token : String)
  | statePut (key : String) (value : Value)
  | newRunner (steps : List Step)
  | runnerRun (runner : Runner) (state : StateBag)
  | logPrintln (msg : String)
  | runnerCancel (runner : Runner)
  deriving DecidableEq, Repr

/-- How a call of `PostProcess` ends: it returns its three results, or the
type assertion `rawErr.(error)` panics. -/
inductive Outcome where
  | ret (artifact : Option Artifact) (keep : Bool) (err : Option GoError)
  | panic (reason : String)
  deriving DecidableEq, Repr

/-- What a call of `PostProcess` leaves behind: the receiver after the call,
the outcome and the effect trace. -/
structure PostResult where
  p : PostProcessor
  outcome : Outcome
  trace : List Effect
  deriving DecidableEq, Repr

/-! ## The program -/

/-- The function `fileExists`:
`_, err := os.Stat(path); if os.IsNotExist(err) { return false }; return err != nil`. -/
def fileExists (w : World) (path : String) : Bool :=
  let err := w.Stat path
  if IsNotExist err then false
  else err.isSome

/-- The map literal `templates` of `Configure`, in source order: key and the
value the pointer refers to. -/
def templates (c : Config) : List (String × String) :=
  [("box_tag", c.Tag),
   ("version", c.Version),
   ("access_token", c.AccessToken),
   ("provider_name", c.ProviderName),
   ("artifact", c.ArtifactFile)]

/-- The loop `for key, ptr := range templates`: one error text per entry whose
value is empty, in iteration order. -/
def requiredErrors (order : List Nat) (c : Config) : List String :=
  order.filterMap (fun i =>
    match (templates c).get? i with
    | some (key, value) => if value == "" then some (key ++ " must be set") else none
    | none => none)

/-- The credential fallback of `Configure` (the block guarded by
`p.config.AccessToken == ""`): the resolved token and the new value of
`warnAtlasToken`. -/
def resolveToken (w : World) (token : String) (warn : Bool) : String × Bool :=
  if token == "" then
    let envToken := w.Getenv "VAGRANT_CLOUD_TOKEN"
    if envToken == "" then
      let envToken := w.Getenv "ATLAS_TOKEN"
      if envToken != "" then (envToken, true) else (envToken, warn)
    else (envToken, warn)
  else (token, warn)

/-- The receiver of `Configure` after the default registry URL and the
credential fallback are applied to the decoded configuration `c`. -/
def withDefaults (w : World) (p : PostProcessor) (c : Config) : PostProcessor :=
  let c1 := if c.VagrantCloudUrl == "" then { c with VagrantCloudUrl := VAGRANT_CLOUD_URL } else c
  let tw := resolveToken w c1.AccessToken p.warnAtlasToken
  { p with config := { c1 with AccessToken := tw.1 }, warnAtlasToken := tw.2 }

/-- The method `PostProcessor.Configure`: the receiver after the call and the
returned error (`none` is nil). -/
def Configure (w : World) (p : PostProcessor) (raws : List Raw) :
    PostProcessor × Option GoError :=
  match w.Decode p.config raws with
  | (c, some err) => ({ p with config := c }, some err)
  | (c, none) =>
    let p1 := withDefaults w p c
    let errs := requiredErrors w.mapOrder p1.config
    if errs.length > 0 then (p1, some (GoError.multiError errs))
    else (p1, none)

/-- The warning text of `PostProcess`. -/
def atlasWarning : String :=
  "Warning: Using Vagrant Cloud token found in ATLAS_TOKEN. Please make sure it is correct, or set VAGRANT_CLOUD_TOKEN"

/-- The seven `state.Put` calls of `PostProcess`, in order. -/
def seedEntries (p : PostProcessor) (ui : Ui) (artifact : PackerArtifact)
    (boxDownloadUrl : String) : List (String × Value) :=
  [("config", Value.config p.config),
   ("client", Value.client p.client),
   ("artifact", Value.artifact artifact),
   ("artifactFilePath", Value.str p.config.ArtifactFile),
   ("ui", Value.ui ui),
   ("providerName", Value.str p.config.ProviderName),
   ("boxDownloadUrl", Value.str boxDownloadUrl)]

/-- The state bag after the seven `Put` calls on a new `BasicStateBag`. -/
def seedState (p : PostProcessor) (ui : Ui) (artifact : PackerArtifact)
    (boxDownloadUrl : String) : StateBag :=
  (seedEntries p ui artifact boxDownloadUrl).foldl (fun s kv => s.Put kv.1 kv.2) []

/-- The block "Build the steps" of `PostProcess`. -/
def buildSteps (c : Config) : List Step :=
  if c.BoxDownloadUrl == "" then
    [Step.stepVerifyBox, Step.stepCreateVersion, Step.stepCreateProvider,
     Step.stepPrepareUpload, Step.stepUpload, Step.stepReleaseVersion]
  else
    [Step.stepVerifyBox, Step.stepCreateVersion, Step.stepCreateProvider,
     Step.stepReleaseVersion]

/-- The end of `PostProcess`, after `p.runner.Run(state)`: the error stored
under "error" is returned as it is; a value under "error" that is not an
error makes the type assertion panic. -/
def finish (p : PostProcessor) (state : StateBag) : Outcome :=
  match state.GetOk "error" with
  | some (Value.err e) => Outcome.ret none false (some e)
  | some _ => Outcome.panic "interface conversion: value under \"error\" is not an error"
  | none => Outcome.ret (some (NewArtifact p.config.ProviderName p.config.Tag)) true none

/-- The receiver of `PostProcess` once the client is created and the template
data is stored in `p.config.ctx.Data` (the assignments before the call of
`interpolate.Render`). -/
def withClient (p : PostProcessor) (artifact : PackerArtifact) : PostProcessor :=
  { p with
    client := some (VagrantCloudClient.New p.config.VagrantCloudUrl p.config.AccessToken)
    config := { p.config with
      ctx := { Data := some { ArtifactId := artifact.Id, Provider := p.config.ProviderName } } } }

/-- The runner `PostProcess` creates: `common.NewRunner(steps, p.config.PackerConfig, ui)`. -/
def runnerFor (p : PostProcessor) (ui : Ui) : Runner :=
  NewRunner (buildSteps p.config) p.config.PackerConfig ui

/-- The state bag after `p.runner.Run(state)` in `PostProcess`, for the rendered
download URL `boxDownloadUrl`. -/
def stateAfterRun (w : World) (p : PostProcessor) (ui : Ui) (artifact : PackerArtifact)
    (boxDownloadUrl : String) : StateBag :=
  w.Run (runnerFor (withClient p artifact) ui)
    (seedState (withClient p artifact) ui artifact boxDownloadUrl)

/-- The method `PostProcessor.PostProcess`. -/
def PostProcess (w : World) (p : PostProcessor) (ui : Ui) (artifact : PackerArtifact) :
    PostResult :=
  if !HasSuffix p.config.ArtifactFile ".box" then
    { p := p
      outcome := Outcome.ret none false (some (GoError.errorf
        ("Unknown artifact file specified, expected '.box', got: " ++ p.config.ArtifactFile)))
      trace := [] }
  else if !fileExists w p.config.ArtifactFile then
    { p := p
      outcome := Outcome.ret none false (some (GoError.errorf
        ("Artifact file specified doesn't exist: " ++ p.config.ArtifactFile)))
      trace := [] }
  else
    let t1 := if p.warnAtlasToken then [Effect.uiMessage ui atlasWarning] else []
    let t2 := t1 ++ [Effect.clientNew p.config.VagrantCloudUrl p.config.AccessToken]
    let p1 := withClient p artifact
    match w.Render p1.config.BoxDownloadUrl p1.config.ctx with
    | Except.error err =>
      { p := p1
        outcome := Outcome.ret none false (some (GoError.errorf
          ("Error processing box_download_url: " ++ err)))
        trace := t2 }
    | Except.ok boxDownloadUrl =>
      let entries := seedEntries p1 ui artifact boxDownloadUrl
      let state := seedState p1 ui artifact boxDownloadUrl
      let runner := runnerFor p1 ui
      let p2 : PostProcessor := { p1 with runner := some runner }
      let final := w.Run runner state
      { p := p2
        outcome := finish p2 final
        trace := t2 ++ entries.map (fun kv => Effect.statePut kv.1 kv.2)
          ++ [Effect.newRunner runner.steps, Effect.runnerRun runner state] }

/-- The method `PostProcessor.Cancel`: the receiver after the call and the
effect trace. -/
def Cancel (p : PostProcessor) : PostProcessor × List Effect :=
  match p.runner with
  | some runner =>
    (p, [Effect.logPrintln "Cancelling the step runner...", Effect.runnerCancel runner])
  | none => (p, [])

/-! ## A runner and sample worlds

`PostProcess` is verified against every behaviour of the runner.  The
definitions below give concrete worlds on which the program is evaluated. -/

/-- The signal a step returns from `Run` (`multistep.StepAction`). -/
inductive StepAction where
  | ActionContinue
  | ActionHalt
  deriving DecidableEq, Repr

/-- What the steps do: `Run` and `Cleanup` of each step. -/
structure StepBehaviour where
  run : Step → StateBag → StepAction × StateBag
  cleanup : Step → StateBag → StateBag

/-- Modelled from the spec: the Workflow Runner (section 4.3), whose code is in
the packer library.  Steps run in list order; after a step returns Halt no
later step runs; then `Cleanup` is invoked for every started step in reverse
order of start.  `started` holds the started steps, latest first. -/
def runSteps (b : StepBehaviour) : List Step → List Step → StateBag → StateBag
  | [], started, state => started.foldl (fun s st => b.cleanup st s) state
  | st :: rest, started, state =>
    match b.run st state with
    | (StepAction.ActionContinue, state1) => runSteps b rest (st :: started) state1
    | (StepAction.ActionHalt, state1) =>
      (st :: started).foldl (fun s st => b.cleanup st s) state1

/-- Steps that all return Continue and leave the state bag alone. -/
def allContinue : StepBehaviour :=
  { run := fun _ state => (StepAction.ActionContinue, state)
    cleanup := fun _ state => state }

/-- Steps of a run with the no-release flag: `stepReleaseVersion` returns Halt
without writing an error; the other steps continue. -/
def haltAtRelease : StepBehaviour :=
  { run := fun st state =>
      if st = Step.stepReleaseVersion then (StepAction.ActionHalt, state)
      else (StepAction.ActionContinue, state)
    cleanup := fun _ state => state }

/-- Steps where `stepCreateVersion` fails: it stores an error under "error"
and returns Halt. -/
def failAtCreateVersion : StepBehaviour :=
  { run := fun st state =>
      if st = Step.stepCreateVersion then
        (StepAction.ActionHalt,
          state.Put "error" (Value.err (GoError.foreign "stepCreateVersion" "version already released")))
      else (StepAction.ActionContinue, state)
    cleanup := fun _ state => state }

/-- A template renderer for the sample worlds: the template
`{{ .ArtifactId }}` renders to the artifact identifier of the context, a
template without an action renders to itself. -/
def sampleRender (template : String) (ctx : Context) : Except String String :=
  if template == "\x7b\x7b .ArtifactId \x7d\x7d" then
    match ctx.Data with
    | some d => Except.ok d.ArtifactId
    | none => Except.error "template: root:1:3: executing \"root\": nil data"
  else if template == "\x7b\x7b" then
    Except.error "template: root:1: unclosed action"
  else Except.ok template

/-- A world: every path names an existing file (`os.Stat` succeeds), no token
in the environment, the decoder leaves the configuration as it is, all steps
continue. -/
def existingFileWorld : World :=
  { Stat := fun _ => none
    Getenv := fun _ => ""
    Decode := fun c _ => (c, none)
    mapOrder := [0, 1, 2, 3, 4]
    Render := sampleRender
    Run := fun r s => runSteps allContinue r.steps [] s }

/-- A world in which `os.Stat` fails with a permission error on every path,
the token is found in ATLAS_TOKEN only, and the map is ranged over in another
order. -/
def deniedStatWorld (b : StepBehaviour) : World :=
  { Stat := fun _ => some OsError.permission
    Getenv := fun name => if name == "ATLAS_TOKEN" then "atlas-secret" else ""
    Decode := fun c _ => (c, none)
    mapOrder := [4, 2, 0, 3, 1]
    Render := sampleRender
    Run := fun r s => runSteps b r.steps [] s }

/-- The configuration of the example scenario: tag "org/box", version "1.0.0",
provider "virtualbox", artifact "build/package.box", no download URL. -/
def scenarioConfig : Config :=
  { PackerConfig := []
    Tag := "org/box"
    Version := "1.0.0"
    VersionDescription := ""
    NoRelease := false
    AccessToken := "secret"
    VagrantCloudUrl := VAGRANT_CLOUD_URL
    BoxDownloadUrl := ""
    ProviderName := "virtualbox"
    ArtifactFile := "build/package.box"
    ctx := { Data := none } }

/-- A new `PostProcessor` holding a configuration. -/
def newPostProcessor (c : Config) : PostProcessor :=
  { config := c, client := none, runner := none, warnAtlasToken := false }

/-- The output sink of the samples. -/
def sampleUi : Ui := { id := 0 }

/-- The build artifact of the samples. -/
def sampleArtifact : PackerArtifact := { Id := "" }

/-- The four-step list. -/
def fourSteps : List Step :=
  [Step.stepVerifyBox, Step.stepCreateVersion, Step.stepCreateProvider,
   Step.stepReleaseVersion]

/-- The six-step list. -/
def sixSteps : List Step :=
  [Step.stepVerifyBox, Step.stepCreateVersion, Step.stepCreateProvider,
   Step.stepPrepareUpload, Step.stepUpload, Step.stepReleaseVersion]

/-! ## Path lemmas for `PostProcess` -/

/-- The code of `fileExists` answers true exactly when `os.Stat` fails with an
error that is not of the "does not exist" class. -/
theorem fileExists_eq_true_iff (w : World) (path : String) :
    fileExists w path = true ↔ ∃ e, w.Stat path = some e ∧ e ≠ OsError.notExist := by
  unfold fileExists IsNotExist
  cases h : w.Stat path with
  | none => simp
  | some e => cases e <;> simp

/-- First exit of `PostProcess`: the path does not end in ".box". -/
theorem PostProcess_of_bad_suffix (w : World) (p : PostProcessor) (ui : Ui)
    (artifact : PackerArtifact) (h : HasSuffix p.config.ArtifactFile ".box" = false) :
    PostProcess w p ui artifact =
      { p := p
        outcome := Outcome.ret none false (some (GoError.errorf
          ("Unknown artifact file specified, expected '.box', got: " ++ p.config.ArtifactFile)))
        trace := [] } := by
  simp [PostProcess, h]

/-- Second exit of `PostProcess`: `fileExists` answers false. -/
theorem PostProcess_of_not_fileExists (w : World) (p : PostProcessor) (ui : Ui)
    (artifact : PackerArtifact) (hs : HasSuffix p.config.ArtifactFile ".box" = true)
    (he : fileExists w p.config.ArtifactFile = false) :
    PostProcess w p ui artifact =
      { p := p
        outcome := Outcome.ret none false (some (GoError.errorf
          ("Artifact file specified doesn't exist: " ++ p.config.ArtifactFile)))
        trace := [] } := by
  simp [PostProcess, hs, he]

/-- Third exit of `PostProcess`: the renderer fails. -/
theorem PostProcess_of_render_error (w : World) (p : PostProcessor) (ui : Ui)
    (artifact : PackerArtifact) (err : String)
    (hs : HasSuffix p.config.ArtifactFile ".box" = true)
    (he : fileExists w p.config.ArtifactFile = true)
    (hr : w.Render p.config.BoxDownloadUrl (withClient p artifact).config.ctx = Except.error err) :
    PostProcess w p ui artifact =
      { p := withClient p artifact
        outcome := Outcome.ret none false (some (GoError.errorf
          ("Error processing box_download_url: " ++ err)))
        trace := (if p.warnAtlasToken then [Effect.uiMessage ui atlasWarning] else [])
          ++ [Effect.clientNew p.config.VagrantCloudUrl p.config.AccessToken] } := by
  have hr1 : w.Render (withClient p artifact).config.BoxDownloadUrl
      (withClient p artifact).config.ctx = Except.error err := hr
  simp [PostProcess, hs, he, hr1]

/-- The path of `PostProcess` through the runner. -/
theorem PostProcess_of_render_ok (w : World) (p : PostProcessor) (ui : Ui)
    (artifact : PackerArtifact) (url : String)
    (hs : HasSuffix p.config.ArtifactFile ".box" = true)
    (he : fileExists w p.config.ArtifactFile = true)
    (hr : w.Render p.config.BoxDownloadUrl (withClient p artifact).config.ctx = Except.ok url) :
    PostProcess w p ui artifact =
      { p := { withClient p artifact with runner := some (runnerFor (withClient p artifact) ui) }
        outcome := finish (withClient p artifact) (stateAfterRun w p ui artifact url)
        trace := (if p.warnAtlasToken then [Effect.uiMessage ui atlasWarning] else [])
          ++ [Effect.clientNew p.config.VagrantCloudUrl p.config.AccessToken]
          ++ (seedEntries (withClient p artifact) ui artifact url).map
              (fun kv => Effect.statePut kv.1 kv.2)
          ++ [Effect.newRunner (buildSteps p.config),
              Effect.runnerRun (runnerFor (withClient p artifact) ui)
                (seedState (withClient p artifact) ui artifact url)] } := by
  have hr1 : w.Render (withClient p artifact).config.BoxDownloadUrl
      (withClient p artifact).config.ctx = Except.ok url := hr
  simp only [PostProcess, hs, he, hr1]
  simp [finish, stateAfterRun, runnerFor, NewRunner, buildSteps, withClient]

/-- The step list depends on the configured download URL only. -/
theorem buildSteps_eq (c : Config) :
    buildSteps c = if c.BoxDownloadUrl = "" then sixSteps else fourSteps := by
  unfold buildSteps sixSteps fourSteps
  by_cases h : c.BoxDownloadUrl = "" <;> simp [h]

/-- Whenever `PostProcess` creates a runner, it does so with `buildSteps`. -/
theorem newRunner_mem_trace (w : World) (p : PostProcessor) (ui : Ui)
    (artifact : PackerArtifact) (steps : List Step)
    (h : Effect.newRunner steps ∈ (PostProcess w p ui artifact).trace) :
    steps = buildSteps p.config := by
  cases hs : HasSuffix p.config.ArtifactFile ".box" with
  | false => rw [PostProcess_of_bad_suffix w p ui artifact hs] at h; simp at h
  | true =>
    cases he : fileExists w p.config.ArtifactFile with
    | false => rw [PostProcess_of_not_fileExists w p ui artifact hs he] at h; simp at h
    | true =>
      cases hr : w.Render p.config.BoxDownloadUrl (withClient p artifact).config.ctx with
      | error err =>
        rw [PostProcess_of_render_error w p ui artifact err hs he hr] at h
        by_cases hw : p.warnAtlasToken <;> simp [hw] at h
      | ok url =>
        rw [PostProcess_of_render_ok w p ui artifact url hs he hr] at h
        by_cases hw : p.warnAtlasToken <;> simpa [hw, seedEntries] using h

/-! ## Claims -/

/-- C1: the example scenario (tag "org/box", version "1.0.0", provider
"virtualbox", artifact "build/package.box" that exists locally, no download
URL, all steps continuing) evaluated on the code.  `os.Stat` succeeds, so
`fileExists` answers false and `PostProcess` returns the "doesn't exist" error
with keep = false; no client is created and no step is run.  The claim expects
the artifact identity ("virtualbox", "org/box") with keep = true. -/
theorem PostProcess_scenario_existing_file :
    existingFileWorld.Stat scenarioConfig.ArtifactFile = none ∧
    HasSuffix scenarioConfig.ArtifactFile ".box" = true ∧
    scenarioConfig.BoxDownloadUrl = "" ∧
    PostProcess existingFileWorld (newPostProcessor scenarioConfig) sampleUi sampleArtifact =
      { p := newPostProcessor scenarioConfig
        outcome := Outcome.ret none false (some (GoError.errorf
          "Artifact file specified doesn't exist: build/package.box"))
        trace := [] } := by
  refine ⟨rfl, by decide, rfl, ?_⟩
  exact PostProcess_of_not_fileExists _ _ _ _ (by decide) (by decide)

/-- C2: the assembled step list is the six-step list when the configured
download URL is empty and the four-step list when it is not; each upload step
is in the list exactly when the configured URL is empty; removing the two
upload steps leaves the four-step list in both cases; and every runner that
`PostProcess` creates gets this list. -/
theorem buildSteps_two_sequences (w : World) (p : PostProcessor) (ui : Ui)
    (artifact : PackerArtifact) :
    (p.config.BoxDownloadUrl = "" →
      buildSteps p.config =
        [Step.stepVerifyBox, Step.stepCreateVersion, Step.stepCreateProvider,
         Step.stepPrepareUpload, Step.stepUpload, Step.stepReleaseVersion]) ∧
    (p.config.BoxDownloadUrl ≠ "" →
      buildSteps p.config =
        [Step.stepVerifyBox, Step.stepCreateVersion, Step.stepCreateProvider,
         Step.stepReleaseVersion]) ∧
    (Step.stepPrepareUpload ∈ buildSteps p.config ↔ p.config.BoxDownloadUrl = "") ∧
    (Step.stepUpload ∈ buildSteps p.config ↔ p.config.BoxDownloadUrl = "") ∧
    (buildSteps p.config).filter
        (fun st => st != Step.stepPrepareUpload && st != Step.stepUpload) =
      [Step.stepVerifyBox, Step.stepCreateVersion, Step.stepCreateProvider,
       Step.stepReleaseVersion] ∧
    (∀ steps, Effect.newRunner steps ∈ (PostProcess w p ui artifact).trace →
      steps = buildSteps p.config) := by
  refine ⟨?_, ?_, ?_, ?_, ?_, newRunner_mem_trace w p ui artifact⟩
  · intro h; simp [buildSteps, h]
  · intro h; simp [buildSteps, h]
  · by_cases h : p.config.BoxDownloadUrl = "" <;> simp [buildSteps, h]
  · by_cases h : p.config.BoxDownloadUrl = "" <;> simp [buildSteps, h]
  · by_cases h : p.config.BoxDownloadUrl = "" <;> simp [buildSteps, h]

/-- C2, at the scenario configuration (empty URL, six steps, and the runner of
an actual run) and at a configuration with a download URL (four steps). -/
theorem buildSteps_two_sequences_witness :
    buildSteps scenarioConfig = sixSteps ∧
    buildSteps { scenarioConfig with BoxDownloadUrl := "https://example.com/a.box" } = fourSteps ∧
    Effect.newRunner sixSteps ∈
      (PostProcess (deniedStatWorld allContinue) (newPostProcessor scenarioConfig)
        sampleUi sampleArtifact).trace :=
  ⟨(buildSteps_two_sequences existingFileWorld (newPostProcessor scenarioConfig)
      sampleUi sampleArtifact).1 rfl,
   (buildSteps_two_sequences existingFileWorld
      (newPostProcessor { scenarioConfig with BoxDownloadUrl := "https://example.com/a.box" })
      sampleUi sampleArtifact).2.1 (by decide),
   by decide⟩

/-- C3: when the artifact path does not end in ".box", `PostProcess` returns
(nil, false, error "Unknown artifact file specified, expected '.box', got: "
followed by the path); the receiver is unchanged (no client, no runner) and
the effect trace is empty (no client created, no state entry written, no
runner created or run), whatever `os.Stat` would answer for the path. -/
theorem PostProcess_rejects_other_extension (w : World) (p : PostProcessor) (ui : Ui)
    (artifact : PackerArtifact) (h : HasSuffix p.config.ArtifactFile ".box" = false) :
    (PostProcess w p ui artifact).outcome =
      Outcome.ret none false (some (GoError.errorf
        ("Unknown artifact file specified, expected '.box', got: " ++ p.config.ArtifactFile))) ∧
    (PostProcess w p ui artifact).p = p ∧
    (PostProcess w p ui artifact).trace = [] := by
  rw [PostProcess_of_bad_suffix w p ui artifact h]
  exact ⟨rfl, rfl, rfl⟩

/-- C3 at the path "build/package.zip", in a world where `os.Stat` succeeds
on it. -/
theorem PostProcess_rejects_other_extension_witness :
    HasSuffix "build/package.zip" ".box" = false ∧
    (PostProcess existingFileWorld
        (newPostProcessor { scenarioConfig with ArtifactFile := "build/package.zip" })
        sampleUi sampleArtifact).outcome =
      Outcome.ret none false (some (GoError.errorf
        "Unknown artifact file specified, expected '.box', got: build/package.zip")) ∧
    (PostProcess existingFileWorld
        (newPostProcessor { scenarioConfig with ArtifactFile := "build/package.zip" })
        sampleUi sampleArtifact).trace = [] :=
  ⟨by decide,
   (PostProcess_rejects_other_extension existingFileWorld
      (newPostProcessor { scenarioConfig with ArtifactFile := "build/package.zip" })
      sampleUi sampleArtifact (by decide)).1,
   (PostProcess_rejects_other_extension existingFileWorld
      (newPostProcessor { scenarioConfig with ArtifactFile := "build/package.zip" })
      sampleUi sampleArtifact (by decide)).2.2⟩

/-- C6: `fileExists` evaluated where `os.Stat` succeeds on "build/package.box"
(the file exists): the code answers false, the claim says true.  It answers
true where `os.Stat` fails with a permission error. -/
theorem fileExists_existing_file_false :
    existingFileWorld.Stat "build/package.box" = none ∧
    fileExists existingFileWorld "build/package.box" = false ∧
    (deniedStatWorld allContinue).Stat "build/package.box" = some OsError.permission ∧
    fileExists (deniedStatWorld allContinue) "build/package.box" = true := by
  decide

/-! ### Configure -/

/-- The fields of the receiver after the defaults and the fallback. -/
theorem withDefaults_fields (w : World) (p : PostProcessor) (c : Config) :
    (withDefaults w p c).config.Tag = c.Tag ∧
    (withDefaults w p c).config.Version = c.Version ∧
    (withDefaults w p c).config.ProviderName = c.ProviderName ∧
    (withDefaults w p c).config.ArtifactFile = c.ArtifactFile ∧
    (withDefaults w p c).config.AccessToken = (resolveToken w c.AccessToken p.warnAtlasToken).1 ∧
    (withDefaults w p c).warnAtlasToken = (resolveToken w c.AccessToken p.warnAtlasToken).2 := by
  unfold withDefaults
  by_cases h : c.VagrantCloudUrl = "" <;> simp [h]

/-- The loop over `templates` collects no error exactly when the five required
settings are all non-empty, in whatever order the map is ranged over. -/
theorem requiredErrors_eq_nil_iff (order : List Nat) (c : Config)
    (hord : order.Perm [0, 1, 2, 3, 4]) :
    requiredErrors order c = [] ↔
      (c.Tag ≠ "" ∧ c.Version ≠ "" ∧ c.AccessToken ≠ "" ∧ c.ProviderName ≠ "" ∧
        c.ArtifactFile ≠ "") := by
  unfold requiredErrors
  rw [List.filterMap_eq_nil_iff]
  constructor
  · intro h
    have h0 := h 0 ((hord.mem_iff).2 (by simp))
    have h1 := h 1 ((hord.mem_iff).2 (by simp))
    have h2 := h 2 ((hord.mem_iff).2 (by simp))
    have h3 := h 3 ((hord.mem_iff).2 (by simp))
    have h4 := h 4 ((hord.mem_iff).2 (by simp))
    simp [templates] at h0 h1 h2 h3 h4
    exact ⟨h0, h1, h2, h3, h4⟩
  · rintro ⟨h0, h1, h2, h3, h4⟩ i hi
    have hi5 := (hord.mem_iff).1 hi
    simp at hi5
    rcases hi5 with rfl | rfl | rfl | rfl | rfl <;> simp [templates, *]

/-- `Configure` after a successful decode. -/
theorem Configure_of_decode_ok (w : World) (p : PostProcessor) (raws : List Raw) (c : Config)
    (hdec : w.Decode p.config raws = (c, none)) :
    (Configure w p raws).1 = withDefaults w p c ∧
    ((Configure w p raws).2 = none ↔
      requiredErrors w.mapOrder (withDefaults w p c).config = []) := by
  unfold Configure
  rw [hdec]
  by_cases h : requiredErrors w.mapOrder (withDefaults w p c).config = []
  · simp [h]
  · have hl : 0 < (requiredErrors w.mapOrder (withDefaults w p c).config).length :=
      List.length_pos.2 h
    simp [h, hl]

/-- `Configure` after a failed decode returns the decoder's error. -/
theorem Configure_of_decode_error (w : World) (p : PostProcessor) (raws : List Raw)
    (c : Config) (err : GoError) (hdec : w.Decode p.config raws = (c, some err)) :
    Configure w p raws = ({ p with config := c }, some err) := by
  unfold Configure
  rw [hdec]

/-- C4: with the map ranged over in any order, (1) given that decoding
succeeds with configuration `c`, `Configure` returns nil exactly when box tag,
version, access token (after the environment fallback), provider name and
artifact path of the configured receiver are all non-empty, and these are the
decoded values (the token after the fallback); (2) whenever `Configure`
returns nil the five fields of the receiver are non-empty. -/
theorem Configure_nil_iff_required (w : World) (p : PostProcessor) (raws : List Raw)
    (hord : w.mapOrder.Perm [0, 1, 2, 3, 4]) :
    (∀ c, w.Decode p.config raws = (c, none) →
      ((Configure w p raws).2 = none ↔
        ((Configure w p raws).1.config.Tag ≠ "" ∧
         (Configure w p raws).1.config.Version ≠ "" ∧
         (Configure w p raws).1.config.AccessToken ≠ "" ∧
         (Configure w p raws).1.config.ProviderName ≠ "" ∧
         (Configure w p raws).1.config.ArtifactFile ≠ "")) ∧
      (Configure w p raws).1.config.Tag = c.Tag ∧
      (Configure w p raws).1.config.Version = c.Version ∧
      (Configure w p raws).1.config.ProviderName = c.ProviderName ∧
      (Configure w p raws).1.config.ArtifactFile = c.ArtifactFile ∧
      (Configure w p raws).1.config.AccessToken =
        (if c.AccessToken = "" then
          (if w.Getenv "VAGRANT_CLOUD_TOKEN" = "" then w.Getenv "ATLAS_TOKEN"
           else w.Getenv "VAGRANT_CLOUD_TOKEN")
         else c.AccessToken)) ∧
    ((Configure w p raws).2 = none →
      ((Configure w p raws).1.config.Tag ≠ "" ∧
       (Configure w p raws).1.config.Version ≠ "" ∧
       (Configure w p raws).1.config.AccessToken ≠ "" ∧
       (Configure w p raws).1.config.ProviderName ≠ "" ∧
       (Configure w p raws).1.config.ArtifactFile ≠ "")) := by
  have key : ∀ c, w.Decode p.config raws = (c, none) →
      ((Configure w p raws).2 = none ↔
        ((Configure w p raws).1.config.Tag ≠ "" ∧
         (Configure w p raws).1.config.Version ≠ "" ∧
         (Configure w p raws).1.config.AccessToken ≠ "" ∧
         (Configure w p raws).1.config.ProviderName ≠ "" ∧
         (Configure w p raws).1.config.ArtifactFile ≠ "")) := by
    intro c hdec
    obtain ⟨h1, h2⟩ := Configure_of_decode_ok w p raws c hdec
    rw [h2, h1]
    exact requiredErrors_eq_nil_iff _ _ hord
  refine ⟨?_, ?_⟩
  · intro c hdec
    refine ⟨key c hdec, ?_⟩
    obtain ⟨h1, -⟩ := Configure_of_decode_ok w p raws c hdec
    obtain ⟨f1, f2, f3, f4, f5, -⟩ := withDefaults_fields w p c
    rw [h1]
    refine ⟨f1, f2, f3, f4, ?_⟩
    rw [f5]
    unfold resolveToken
    by_cases ha : c.AccessToken = "" <;>
      by_cases hv : w.Getenv "VAGRANT_CLOUD_TOKEN" = "" <;>
      by_cases ht : w.Getenv "ATLAS_TOKEN" = "" <;> simp [ha, hv, ht]
  · intro hnil
    cases hdec : w.Decode p.config raws with
    | mk c oerr =>
      cases oerr with
      | none => exact (key c hdec).1 hnil
      | some err =>
        rw [Configure_of_decode_error w p raws c err hdec] at hnil
        simp at hnil

/-- C4 in a world that ranges over the map in the order artifact,
access_token, box_tag, provider_name, version and finds the token in
ATLAS_TOKEN: the scenario configuration without a token is accepted, the same
configuration without a version is refused. -/
theorem Configure_nil_iff_required_witness :
    [4, 2, 0, 3, 1].Perm [0, 1, 2, 3, 4] ∧
    (Configure (deniedStatWorld allContinue)
        (newPostProcessor { scenarioConfig with AccessToken := "" }) []).2 = none ∧
    (Configure (deniedStatWorld allContinue)
        (newPostProcessor { scenarioConfig with AccessToken := "" }) []).1.config.AccessToken
      = "atlas-secret" ∧
    (Configure (deniedStatWorld allContinue)
        (newPostProcessor { scenarioConfig with Version := "" }) []).2
      = some (GoError.multiError ["version must be set"]) :=
  ⟨by decide,
   ((Configure_nil_iff_required (deniedStatWorld allContinue)
      (newPostProcessor { scenarioConfig with AccessToken := "" }) [] (by decide)).1
      { scenarioConfig with AccessToken := "" } rfl).1.2 (by decide),
   by decide, by decide⟩

/-! ### After the run -/

/-- C5: on the path through the runner (both file checks passed, the template
rendered), for every behaviour of the runner: when the state bag after the run
holds an error `e` under "error", `PostProcess` returns (nil, false, e) with
that very value; when the key is absent it returns the artifact
(ProviderName, Tag) with keep = true and a nil error, however the run
stopped. -/
theorem PostProcess_outcome_after_run (w : World) (p : PostProcessor) (ui : Ui)
    (artifact : PackerArtifact) (url : String)
    (hs : HasSuffix p.config.ArtifactFile ".box" = true)
    (he : fileExists w p.config.ArtifactFile = true)
    (hr : w.Render p.config.BoxDownloadUrl
      { Data := some { ArtifactId := artifact.Id, Provider := p.config.ProviderName } }
        = Except.ok url) :
    (∀ e, (stateAfterRun w p ui artifact url).GetOk "error" = some (Value.err e) →
      (PostProcess w p ui artifact).outcome = Outcome.ret none false (some e)) ∧
    ((stateAfterRun w p ui artifact url).GetOk "error" = none →
      (PostProcess w p ui artifact).outcome =
        Outcome.ret (some (NewArtifact p.config.ProviderName p.config.Tag)) true none) := by
  rw [PostProcess_of_render_ok w p ui artifact url hs he hr]
  constructor
  · intro e h
    simp [finish, h]
  · intro h
    simp [finish, h, withClient]

/-- C5 on two runs: `stepCreateVersion` stores an error and halts, and the
stored error comes back as it is; `stepReleaseVersion` halts without an error
and the run is reported as a success. -/
theorem PostProcess_outcome_after_run_witness :
    (PostProcess (deniedStatWorld failAtCreateVersion) (newPostProcessor scenarioConfig)
        sampleUi sampleArtifact).outcome =
      Outcome.ret none false
        (some (GoError.foreign "stepCreateVersion" "version already released")) ∧
    (PostProcess (deniedStatWorld haltAtRelease) (newPostProcessor scenarioConfig)
        sampleUi sampleArtifact).outcome =
      Outcome.ret (some (NewArtifact "virtualbox" "org/box")) true none :=
  ⟨(PostProcess_outcome_after_run (deniedStatWorld failAtCreateVersion)
      (newPostProcessor scenarioConfig) sampleUi sampleArtifact "" (by decide) (by decide) rfl).1 _ (by decide),
   (PostProcess_outcome_after_run (deniedStatWorld haltAtRelease)
      (newPostProcessor scenarioConfig) sampleUi sampleArtifact "" (by decide) (by decide) rfl).2 (by decide)⟩

/-- C7: when the two file checks have passed and rendering the download-URL
template fails with text `err`, `PostProcess` returns (nil, false, error
"Error processing box_download_url: " followed by `err`); the effect trace
holds the optional warning and the client creation only: no state entry is
written, no runner is created (so no step list is handed over) and no runner
is run; the receiver's runner is unchanged. -/
theorem PostProcess_render_failure (w : World) (p : PostProcessor) (ui : Ui)
    (artifact : PackerArtifact) (err : String)
    (hs : HasSuffix p.config.ArtifactFile ".box" = true)
    (he : fileExists w p.config.ArtifactFile = true)
    (hr : w.Render p.config.BoxDownloadUrl
      { Data := some { ArtifactId := artifact.Id, Provider := p.config.ProviderName } }
        = Except.error err) :
    (PostProcess w p ui artifact).outcome =
      Outcome.ret none false (some (GoError.errorf
        ("Error processing box_download_url: " ++ err))) ∧
    (PostProcess w p ui artifact).trace =
      (if p.warnAtlasToken then [Effect.uiMessage ui atlasWarning] else [])
        ++ [Effect.clientNew p.config.VagrantCloudUrl p.config.AccessToken] ∧
    (∀ key value, Effect.statePut key value ∉ (PostProcess w p ui artifact).trace) ∧
    (∀ steps, Effect.newRunner steps ∉ (PostProcess w p ui artifact).trace) ∧
    (∀ runner state, Effect.runnerRun runner state ∉ (PostProcess w p ui artifact).trace) ∧
    (PostProcess w p ui artifact).p.runner = p.runner := by
  rw [PostProcess_of_render_error w p ui artifact err hs he hr]
  refine ⟨rfl, rfl, ?_, ?_, ?_, rfl⟩
  · intro key value
    by_cases hw : p.warnAtlasToken <;> simp [hw]
  · intro steps
    by_cases hw : p.warnAtlasToken <;> simp [hw]
  · intro runner state
    by_cases hw : p.warnAtlasToken <;> simp [hw]

/-- C7 on the unclosed template `{{`. -/
theorem PostProcess_render_failure_witness :
    (PostProcess (deniedStatWorld allContinue)
        (newPostProcessor { scenarioConfig with BoxDownloadUrl := "\x7b\x7b" })
        sampleUi sampleArtifact).outcome =
      Outcome.ret none false (some (GoError.errorf
        "Error processing box_download_url: template: root:1: unclosed action")) ∧
    (PostProcess (deniedStatWorld allContinue)
        (newPostProcessor { scenarioConfig with BoxDownloadUrl := "\x7b\x7b" })
        sampleUi sampleArtifact).trace =
      [Effect.clientNew VAGRANT_CLOUD_URL "secret"] :=
  ⟨(PostProcess_render_failure (deniedStatWorld allContinue)
      (newPostProcessor { scenarioConfig with BoxDownloadUrl := "\x7b\x7b" })
      sampleUi sampleArtifact "template: root:1: unclosed action"
      (by decide) (by decide) rfl).1,
   (PostProcess_render_failure (deniedStatWorld allContinue)
      (newPostProcessor { scenarioConfig with BoxDownloadUrl := "\x7b\x7b" })
      sampleUi sampleArtifact "template: root:1: unclosed action"
      (by decide) (by decide) rfl).2.1⟩

/-! ### Choice of the step list -/

/-- A processor whose download-URL template is `{{ .ArtifactId }}`. -/
def selfHostedProcessor : PostProcessor :=
  newPostProcessor { scenarioConfig with BoxDownloadUrl := "\x7b\x7b .ArtifactId \x7d\x7d" }

/-- C8, counterexample: with the non-empty template `{{ .ArtifactId }}` and an
artifact whose identifier is empty, the rendered URL stored under
"boxDownloadUrl" is the empty string, and yet the runner gets the four-step
list, without the two upload steps. -/
theorem rendered_empty_url_selects_four_steps :
    selfHostedProcessor.config.BoxDownloadUrl ≠ "" ∧
    Effect.statePut "boxDownloadUrl" (Value.str "") ∈
      (PostProcess (deniedStatWorld allContinue) selfHostedProcessor
        sampleUi sampleArtifact).trace ∧
    Effect.newRunner fourSteps ∈
      (PostProcess (deniedStatWorld allContinue) selfHostedProcessor
        sampleUi sampleArtifact).trace ∧
    Step.stepPrepareUpload ∉ fourSteps ∧ Step.stepUpload ∉ fourSteps := by
  decide

/-- C8, amended: the upload steps are in the step list of the runner exactly
when the configured download-URL template is the empty string; two
configurations that agree on whether the template is empty get the same list;
the value stored under "boxDownloadUrl" is the rendered URL, which plays no
part in the choice. -/
theorem steps_follow_configured_url (w : World) (p : PostProcessor) (ui : Ui)
    (artifact : PackerArtifact) :
    (∀ steps, Effect.newRunner steps ∈ (PostProcess w p ui artifact).trace →
      (Step.stepPrepareUpload ∈ steps ↔ p.config.BoxDownloadUrl = "") ∧
      (Step.stepUpload ∈ steps ↔ p.config.BoxDownloadUrl = "")) ∧
    (∀ c c1 : Config, (c.BoxDownloadUrl = "" ↔ c1.BoxDownloadUrl = "") →
      buildSteps c = buildSteps c1) ∧
    (∀ value, Effect.statePut "boxDownloadUrl" value ∈ (PostProcess w p ui artifact).trace →
      ∃ url, w.Render p.config.BoxDownloadUrl
          { Data := some { ArtifactId := artifact.Id, Provider := p.config.ProviderName } }
            = Except.ok url ∧ value = Value.str url) := by
  refine ⟨?_, ?_, ?_⟩
  · intro steps h
    rw [newRunner_mem_trace w p ui artifact steps h, buildSteps_eq]
    by_cases hu : p.config.BoxDownloadUrl = "" <;> simp [hu, sixSteps, fourSteps]
  · intro c c1 h
    rw [buildSteps_eq, buildSteps_eq]
    by_cases hu : c.BoxDownloadUrl = ""
    · simp [hu, h.1 hu]
    · have hu1 : ¬ c1.BoxDownloadUrl = "" := fun h1 => hu (h.2 h1)
      simp [hu, hu1]
  · intro value h
    cases hs : HasSuffix p.config.ArtifactFile ".box" with
    | false => rw [PostProcess_of_bad_suffix w p ui artifact hs] at h; simp at h
    | true =>
      cases he : fileExists w p.config.ArtifactFile with
      | false => rw [PostProcess_of_not_fileExists w p ui artifact hs he] at h; simp at h
      | true =>
        cases hr : w.Render p.config.BoxDownloadUrl (withClient p artifact).config.ctx with
        | error err =>
          rw [PostProcess_of_render_error w p ui artifact err hs he hr] at h
          by_cases hw : p.warnAtlasToken <;> simp [hw] at h
        | ok url =>
          rw [PostProcess_of_render_ok w p ui artifact url hs he hr] at h
          refine ⟨url, hr, ?_⟩
          by_cases hw : p.warnAtlasToken <;> simpa [hw, seedEntries] using h

/-- C8, amended, on the template `{{ .ArtifactId }}` that renders to the
empty string: neither upload step is in the list of the runner. -/
theorem steps_follow_configured_url_witness :
    ¬ (Step.stepPrepareUpload ∈ fourSteps) ∧ ¬ (Step.stepUpload ∈ fourSteps) :=
  ⟨fun h => absurd
      (((steps_follow_configured_url (deniedStatWorld allContinue) selfHostedProcessor
        sampleUi sampleArtifact).1 fourSteps (by decide)).1.1 h) (by decide),
   fun h => absurd
      (((steps_follow_configured_url (deniedStatWorld allContinue) selfHostedProcessor
        sampleUi sampleArtifact).1 fourSteps (by decide)).2.1 h) (by decide)⟩

/-! ### Cancel -/

/-- C9: `Cancel` on a processor without a runner leaves the processor as it
is and has no effect at all; on a processor with runner `r` it leaves the
processor (configuration included) as it is, logs one line and calls
`r.Cancel()` exactly once, and writes no state entry. -/
theorem Cancel_forwards_once (p : PostProcessor) :
    (p.runner = none → Cancel p = (p, [])) ∧
    (∀ r, p.runner = some r →
      (Cancel p).1 = p ∧
      (Cancel p).2 =
        [Effect.logPrintln "Cancelling the step runner...", Effect.runnerCancel r] ∧
      (Cancel p).2.count (Effect.runnerCancel r) = 1 ∧
      (∀ r1, Effect.runnerCancel r1 ∈ (Cancel p).2 → r1 = r) ∧
      (∀ key value, Effect.statePut key value ∉ (Cancel p).2)) ∧
    (Cancel p).1.config = p.config := by
  refine ⟨?_, ?_, ?_⟩
  · intro h
    simp [Cancel, h]
  · intro r h
    simp [Cancel, h, List.count_cons]
  · unfold Cancel
    cases p.runner <;> rfl

/-- C9 before and after a run of `PostProcess`. -/
theorem Cancel_forwards_once_witness :
    Cancel (newPostProcessor scenarioConfig) = (newPostProcessor scenarioConfig, []) ∧
    (Cancel (PostProcess (deniedStatWorld allContinue) (newPostProcessor scenarioConfig)
        sampleUi sampleArtifact).p).2 =
      [Effect.logPrintln "Cancelling the step runner...",
       Effect.runnerCancel (NewRunner sixSteps [] sampleUi)] :=
  ⟨(Cancel_forwards_once (newPostProcessor scenarioConfig)).1 rfl,
   ((Cancel_forwards_once (PostProcess (deniedStatWorld allContinue)
      (newPostProcessor scenarioConfig) sampleUi sampleArtifact).p).2.1
      (NewRunner sixSteps [] sampleUi) (by decide)).2.1⟩

/-! ### Credential resolution -/

/-- The scenario configuration without a token and with the artifact
"build/package.zip". -/
def zipProcessor : PostProcessor :=
  newPostProcessor { scenarioConfig with AccessToken := "", ArtifactFile := "build/package.zip" }

/-- A world whose decoder fails and leaves the configuration as it was; the
token is in ATLAS_TOKEN only. -/
def failingDecodeWorld : World :=
  { Stat := fun _ => some OsError.permission
    Getenv := fun name => if name == "ATLAS_TOKEN" then "atlas-secret" else ""
    Decode := fun c _ => (c, some (GoError.foreign "config.Decode" "1 error(s) decoding"))
    mapOrder := [0, 1, 2, 3, 4]
    Render := sampleRender
    Run := fun r s => runSteps allContinue r.steps [] s }

/-- C10, counterexample, in two parts.  (1) Configured with the token found in
ATLAS_TOKEN only, `Configure` returns nil and sets `warnAtlasToken`;
`PostProcess` on the artifact "build/package.zip" then returns at the
extension check and emits no warning, although the flag is set.  (2) When the
decoder fails, `Configure` returns its error before the fallback: the
configured token and VAGRANT_CLOUD_TOKEN are empty and ATLAS_TOKEN is not, and
yet the token stays empty and the flag stays unset. -/
theorem warning_not_emitted_with_flag_set :
    ((Configure (deniedStatWorld allContinue) zipProcessor []).2 = none ∧
     (Configure (deniedStatWorld allContinue) zipProcessor []).1.warnAtlasToken = true ∧
     Effect.uiMessage sampleUi atlasWarning ∉
      (PostProcess (deniedStatWorld allContinue)
        (Configure (deniedStatWorld allContinue) zipProcessor []).1
        sampleUi sampleArtifact).trace) ∧
    (failingDecodeWorld.Getenv "VAGRANT_CLOUD_TOKEN" = "" ∧
     failingDecodeWorld.Getenv "ATLAS_TOKEN" = "atlas-secret" ∧
     (Configure failingDecodeWorld zipProcessor []).2 =
       some (GoError.foreign "config.Decode" "1 error(s) decoding") ∧
     (Configure failingDecodeWorld zipProcessor []).1.config.AccessToken = "" ∧
     (Configure failingDecodeWorld zipProcessor []).1.warnAtlasToken = false) := by
  decide

/-- C10, amended.  (1) When decoding succeeds with configuration `c`: a
non-empty configured token is kept and leaves the flag as it was; an empty one
is replaced by VAGRANT_CLOUD_TOKEN if that is non-empty, else by ATLAS_TOKEN;
the flag is true afterwards exactly when it was true before or the configured
token and VAGRANT_CLOUD_TOKEN are both empty and ATLAS_TOKEN is not, so on a
receiver whose flag is unset it is set exactly under that condition.  (2) When
decoding fails with error `err`, `Configure` returns `err`, the configuration
is what the decoder left (no fallback) and the flag is as it was.
(3) `PostProcess` sends the warning to the output sink exactly when the flag
is set and the run gets past both artifact-file checks (the path ends in
".box" and `fileExists` answers true). -/
theorem credential_resolution (w : World) (p : PostProcessor) (raws : List Raw)
    (ui : Ui) (artifact : PackerArtifact) :
    (∀ c, w.Decode p.config raws = (c, none) →
      (c.AccessToken ≠ "" →
        (Configure w p raws).1.config.AccessToken = c.AccessToken ∧
        (Configure w p raws).1.warnAtlasToken = p.warnAtlasToken) ∧
      (c.AccessToken = "" →
        (Configure w p raws).1.config.AccessToken =
          (if w.Getenv "VAGRANT_CLOUD_TOKEN" ≠ "" then w.Getenv "VAGRANT_CLOUD_TOKEN"
           else w.Getenv "ATLAS_TOKEN")) ∧
      ((Configure w p raws).1.warnAtlasToken = true ↔
        (p.warnAtlasToken = true ∨
          (c.AccessToken = "" ∧ w.Getenv "VAGRANT_CLOUD_TOKEN" = "" ∧
            w.Getenv "ATLAS_TOKEN" ≠ ""))) ∧
      (p.warnAtlasToken = false →
        ((Configure w p raws).1.warnAtlasToken = true ↔
          (c.AccessToken = "" ∧ w.Getenv "VAGRANT_CLOUD_TOKEN" = "" ∧
            w.Getenv "ATLAS_TOKEN" ≠ "")))) ∧
    (∀ c err, w.Decode p.config raws = (c, some err) →
      (Configure w p raws).2 = some err ∧
      (Configure w p raws).1.config = c ∧
      (Configure w p raws).1.warnAtlasToken = p.warnAtlasToken) ∧
    (∀ q : PostProcessor,
      Effect.uiMessage ui atlasWarning ∈ (PostProcess w q ui artifact).trace ↔
        (q.warnAtlasToken = true ∧ HasSuffix q.config.ArtifactFile ".box" = true ∧
          fileExists w q.config.ArtifactFile = true)) := by
  refine ⟨?_, ?_, ?_⟩
  · intro c hdec
    obtain ⟨h1, -⟩ := Configure_of_decode_ok w p raws c hdec
    obtain ⟨-, -, -, -, f5, f6⟩ := withDefaults_fields w p c
    rw [h1, f5, f6]
    refine ⟨?_, ?_, ?_, ?_⟩
    · intro ha
      simp [resolveToken, ha]
    · intro ha
      by_cases hv : w.Getenv "VAGRANT_CLOUD_TOKEN" = "" <;>
        by_cases ht : w.Getenv "ATLAS_TOKEN" = "" <;> simp [resolveToken, ha, hv, ht]
    · by_cases ha : c.AccessToken = "" <;>
        by_cases hv : w.Getenv "VAGRANT_CLOUD_TOKEN" = "" <;>
        by_cases ht : w.Getenv "ATLAS_TOKEN" = "" <;> simp [resolveToken, ha, hv, ht]
    · intro hp
      by_cases ha : c.AccessToken = "" <;>
        by_cases hv : w.Getenv "VAGRANT_CLOUD_TOKEN" = "" <;>
        by_cases ht : w.Getenv "ATLAS_TOKEN" = "" <;> simp [resolveToken, ha, hv, ht, hp]
  · intro c err hdec
    rw [Configure_of_decode_error w p raws c err hdec]
    exact ⟨rfl, rfl, rfl⟩
  · intro q
    cases hs : HasSuffix q.config.ArtifactFile ".box" with
    | false => rw [PostProcess_of_bad_suffix w q ui artifact hs]; simp
    | true =>
      cases he : fileExists w q.config.ArtifactFile with
      | false => rw [PostProcess_of_not_fileExists w q ui artifact hs he]; simp
      | true =>
        cases hr : w.Render q.config.BoxDownloadUrl (withClient q artifact).config.ctx with
        | error err =>
          rw [PostProcess_of_render_error w q ui artifact err hs he hr]
          by_cases hw : q.warnAtlasToken <;> simp [hw]
        | ok url =>
          rw [PostProcess_of_render_ok w q ui artifact url hs he hr]
          by_cases hw : q.warnAtlasToken <;> simp [hw, seedEntries]

/-- C10, amended, at concrete inputs.  With ATLAS_TOKEN only and a decoder that
succeeds: the token is taken from ATLAS_TOKEN, the flag is set, and a run on
"build/package.box" emits the warning.  With a decoder that fails: the
decoder's error is returned and the flag stays unset. -/
theorem credential_resolution_witness :
    (Configure (deniedStatWorld allContinue)
        (newPostProcessor { scenarioConfig with AccessToken := "" }) []).1.config.AccessToken
      = "atlas-secret" ∧
    (Configure (deniedStatWorld allContinue)
        (newPostProcessor { scenarioConfig with AccessToken := "" }) []).1.warnAtlasToken
      = true ∧
    Effect.uiMessage sampleUi atlasWarning ∈
      (PostProcess (deniedStatWorld allContinue)
        (Configure (deniedStatWorld allContinue)
          (newPostProcessor { scenarioConfig with AccessToken := "" }) []).1
        sampleUi sampleArtifact).trace ∧
    (Configure failingDecodeWorld zipProcessor []).2 =
      some (GoError.foreign "config.Decode" "1 error(s) decoding") ∧
    (Configure failingDecodeWorld zipProcessor []).1.warnAtlasToken = false :=
  ⟨((credential_resolution (deniedStatWorld allContinue)
      (newPostProcessor { scenarioConfig with AccessToken := "" }) []
      sampleUi sampleArtifact).1 { scenarioConfig with AccessToken := "" } rfl).2.1 rfl,
   (((credential_resolution (deniedStatWorld allContinue)
      (newPostProcessor { scenarioConfig with AccessToken := "" }) []
      sampleUi sampleArtifact).1 { scenarioConfig with AccessToken := "" } rfl).2.2.2
      rfl).2 (by decide),
   ((credential_resolution (deniedStatWorld allContinue)
      (newPostProcessor { scenarioConfig with AccessToken := "" }) []
      sampleUi sampleArtifact).2.2 _).2 (by decide),
   ((credential_resolution failingDecodeWorld zipProcessor [] sampleUi sampleArtifact).2.1
      zipProcessor.config (GoError.foreign "config.Decode" "1 error(s) decoding") rfl).1,
   ((credential_resolution failingDecodeWorld zipProcessor [] sampleUi sampleArtifact).2.1
      zipProcessor.config (GoError.foreign "config.Decode" "1 error(s) decoding") rfl).2.2⟩

end VagrantCloud
